import Mathlib

/-!
Verification of the `genai_scaffold` project generator.

The development shallowly embeds the Python sources:
* `genai_scaffold/core/config.py` — the `ProjectConfig` dataclass and its
  `__post_init__` validation;
* `genai_scaffold/generators/project_generator.py` — the context builder
  `_build_context` and the file-resolution logic of `generate`;
* `genai_scaffold/template_engine.py` — the `.j2`-suffix stripping used to
  derive destination file names (`pathlib` suffix semantics);
* `genai_scaffold/cli.py` — the non-interactive branch of the `create`
  command.

Filesystem effects are modelled as an explicit list of actions (directory
creation, rendered-file writes, `touch`) applied to a filesystem state; Jinja
rendering is kept abstract as the pair (template name, render context), which
is faithful because rendering is a pure function of those two inputs.
-/

namespace GenaiScaffold

/-- The `ProjectConfig` dataclass of `core/config.py` (field order and
defaults as in the source). -/
structure ProjectConfig where
  project_name : String
  llm_provider : String
  orchestrator : String
  vector_db : String
  ui_framework : String
  dependency_manager : String := "pip"
  enable_observability : Bool := false
  observability_tool : Option String := none
  enable_docker : Bool := true
deriving DecidableEq, Repr

/-- `valid_llm_providers` from `__post_init__`. -/
def valid_llm_providers : List String := ["openai", "anthropic", "azure", "ollama", "local"]

/-- `valid_orchestrators` from `__post_init__`. -/
def valid_orchestrators : List String := ["langchain", "llamaindex", "dspy", "none"]

/-- `valid_vector_dbs` from `__post_init__`. -/
def valid_vector_dbs : List String := ["pinecone", "chromadb", "qdrant", "pgvector"]

/-- `valid_ui_frameworks` from `__post_init__`. -/
def valid_ui_frameworks : List String := ["streamlit", "gradio", "fastapi", "none"]

/-- `valid_dependency_managers` from `__post_init__`. -/
def valid_dependency_managers : List String := ["poetry", "pip"]

/-- `valid_observability_tools` from `__post_init__` (the Python list
`["langsmith", "wandb", None]`). -/
def valid_observability_tools : List (Option String) := [some "langsmith", some "wandb", none]

/-- Python's `str` of an `Optional[str]` as it appears interpolated in the
f-string error message (`None` for the unset case). -/
def optToPyStr : Option String → String
  | none => "None"
  | some s => s

/-- `ProjectConfig.__post_init__`: the validation run at construction.
`Except.error msg` models `raise ValueError(msg)`; checks occur in source
order and only these six checks exist (in particular `project_name` and the
consistency of `observability_tool` with `enable_observability` are never
checked). -/
def postInit (c : ProjectConfig) : Except String Unit :=
  if c.llm_provider ∉ valid_llm_providers then
    .error ("Invalid LLM provider: " ++ c.llm_provider)
  else if c.orchestrator ∉ valid_orchestrators then
    .error ("Invalid orchestrator: " ++ c.orchestrator)
  else if c.vector_db ∉ valid_vector_dbs then
    .error ("Invalid vector DB: " ++ c.vector_db)
  else if c.ui_framework ∉ valid_ui_frameworks then
    .error ("Invalid UI framework: " ++ c.ui_framework)
  else if c.dependency_manager ∉ valid_dependency_managers then
    .error ("Invalid dependency manager: " ++ c.dependency_manager)
  else if c.observability_tool ∉ valid_observability_tools then
    .error ("Invalid observability tool: " ++ optToPyStr c.observability_tool)
  else
    .ok ()

/-- A value stored in the render context (`_build_context` returns a dict of
strings, booleans and one optional string). -/
inductive CtxVal where
  | str : String → CtxVal
  | bool : Bool → CtxVal
  | ostr : Option String → CtxVal
deriving DecidableEq, Repr

/-- `ProjectGenerator._build_context`: the template context as an ordered
association list, entry for entry as in the source dict literal. -/
def build_context (c : ProjectConfig) : List (String × CtxVal) :=
  [("project_name", .str c.project_name),
   ("llm_provider", .str c.llm_provider),
   ("orchestrator", .str c.orchestrator),
   ("vector_db", .str c.vector_db),
   ("ui_framework", .str c.ui_framework),
   ("dependency_manager", .str c.dependency_manager),
   ("enable_observability", .bool c.enable_observability),
   ("observability_tool", .ostr c.observability_tool),
   ("enable_docker", .bool c.enable_docker),
   ("use_langchain", .bool (c.orchestrator == "langchain")),
   ("use_llamaindex", .bool (c.orchestrator == "llamaindex")),
   ("use_dspy", .bool (c.orchestrator == "dspy")),
   ("use_openai", .bool (c.llm_provider == "openai")),
   ("use_anthropic", .bool (c.llm_provider == "anthropic")),
   ("use_azure", .bool (c.llm_provider == "azure")),
   ("use_ollama", .bool (c.llm_provider == "ollama")),
   ("use_pinecone", .bool (c.vector_db == "pinecone")),
   ("use_chromadb", .bool (c.vector_db == "chromadb")),
   ("use_qdrant", .bool (c.vector_db == "qdrant")),
   ("use_pgvector", .bool (c.vector_db == "pgvector")),
   ("use_streamlit", .bool (c.ui_framework == "streamlit")),
   ("use_gradio", .bool (c.ui_framework == "gradio")),
   ("use_fastapi", .bool (c.ui_framework == "fastapi")),
   ("use_poetry", .bool (c.dependency_manager == "poetry")),
   ("use_langsmith", .bool (c.observability_tool == some "langsmith")),
   ("use_wandb", .bool (c.observability_tool == some "wandb"))]

/-- Look a boolean flag up in the render context. -/
def ctxFlag (c : ProjectConfig) (key : String) : Option Bool :=
  match (build_context c).lookup key with
  | some (.bool b) => some b
  | _ => none

/-- How many of the given flag keys are `true` in the context of `c`. -/
def trueFlags (c : ProjectConfig) (keys : List String) : Nat :=
  keys.countP (fun k => ctxFlag c k = some true)

/-- The `use_*` keys derived from `llm_provider`. -/
def llmFlagKeys : List String := ["use_openai", "use_anthropic", "use_azure", "use_ollama"]

/-- The `use_*` keys derived from `orchestrator`. -/
def orchFlagKeys : List String := ["use_langchain", "use_llamaindex", "use_dspy"]

/-- The `use_*` keys derived from `vector_db`. -/
def vecFlagKeys : List String := ["use_pinecone", "use_chromadb", "use_qdrant", "use_pgvector"]

/-- The `use_*` keys derived from `ui_framework`. -/
def uiFlagKeys : List String := ["use_streamlit", "use_gradio", "use_fastapi"]

/-- The `use_*` keys derived from `dependency_manager`. -/
def depFlagKeys : List String := ["use_poetry"]

/-- The `use_*` keys derived from `observability_tool`. -/
def obsFlagKeys : List String := ["use_langsmith", "use_wandb"]

/-- The fixed key list of the render context, in source order. -/
def contextKeys : List String :=
  ["project_name", "llm_provider", "orchestrator", "vector_db", "ui_framework",
   "dependency_manager", "enable_observability", "observability_tool", "enable_docker",
   "use_langchain", "use_llamaindex", "use_dspy",
   "use_openai", "use_anthropic", "use_azure", "use_ollama",
   "use_pinecone", "use_chromadb", "use_qdrant", "use_pgvector",
   "use_streamlit", "use_gradio", "use_fastapi",
   "use_poetry", "use_langsmith", "use_wandb"]

/-- Whether a context key is one of the helper boolean flags. -/
def startsWithUse (k : String) : Bool := k.data.take 4 = "use_".data

/-- Content of a file on disk: either the rendering of a named template with
a context (`Template.render` is a pure function of these two inputs, so the
pair determines the bytes), or the empty content `Path.touch` creates. -/
inductive FileVal where
  | rendered : String → List (String × CtxVal) → FileVal
  | emptyFile : FileVal
deriving DecidableEq

/-- One filesystem effect of `ProjectGenerator.generate`, with paths relative
to the destination root (`""` is the root itself). -/
inductive FsAction where
  | mkdir : String → FsAction
  | write : String → FileVal → FsAction
  | touch : String → FsAction
deriving DecidableEq

/-- Directory part of a destination path (`Path.parent`, relative form). -/
def parentDir (p : String) : String :=
  String.intercalate "/" ((p.splitOn "/").dropLast)

/-- `self._render_template(tname, destination / dest, context)`: it creates
the parent directory (`parents=True, exist_ok=True`) and then overwrites the
destination with the rendered text. -/
def renderT (tname dest : String) (ctx : List (String × CtxVal)) : List FsAction :=
  [.mkdir (parentDir dest), .write dest (.rendered tname ctx)]

/-- The directory list of `_render_base_structure`. -/
def baseDirs : List String :=
  ["src", "src/llm", "src/prompts", "src/utils", "src/handlers", "tests", "config",
   "data/cache", "data/outputs", "data/embeddings", "notebooks"]

/-- `ProjectGenerator._render_base_structure`. -/
def render_base_structure (ctx : List (String × CtxVal)) : List FsAction :=
  baseDirs.map .mkdir
    ++ renderT "new/README.md.j2" "README.md" ctx
    ++ renderT "new/.env.example.j2" ".env.example" ctx
    ++ renderT "new/.gitignore.j2" ".gitignore" ctx
    ++ renderT "new/Makefile.j2" "Makefile" ctx
    ++ renderT "new/src/__init__.py.j2" "src/__init__.py" ctx
    ++ renderT "new/src/config.py.j2" "src/config.py" ctx
    ++ renderT "new/src/prompts/__init__.py.j2" "src/prompts/__init__.py" ctx
    ++ renderT "new/src/prompts/loader.py.j2" "src/prompts/loader.py" ctx
    ++ renderT "new/src/prompts/templates.yaml.j2" "src/prompts/templates.yaml" ctx
    ++ renderT "new/src/utils/__init__.py.j2" "src/utils/__init__.py" ctx
    ++ renderT "new/src/utils/logger.py.j2" "src/utils/logger.py" ctx
    ++ renderT "new/tests/__init__.py.j2" "tests/__init__.py" ctx
    ++ renderT "new/tests/conftest.py.j2" "tests/conftest.py" ctx
    ++ renderT "new/tests/test_example.py.j2" "tests/test_example.py" ctx
    ++ renderT "new/pytest.ini.j2" "pytest.ini" ctx
    ++ (["data/cache", "data/outputs", "data/embeddings", "notebooks"].map
          (fun d => .touch (d ++ "/.gitkeep")))

/-- `ProjectGenerator._render_llm_provider`. -/
def render_llm_provider (ctx : List (String × CtxVal)) : List FsAction :=
  renderT "new/src/llm/__init__.py.j2" "src/llm/__init__.py" ctx
    ++ renderT "new/src/llm/client.py.j2" "src/llm/client.py" ctx

/-- `ProjectGenerator._render_orchestrator`. -/
def render_orchestrator (c : ProjectConfig) (ctx : List (String × CtxVal)) : List FsAction :=
  if c.orchestrator ≠ "none" then
    renderT "new/src/rag_pipeline.py.j2" "src/rag_pipeline.py" ctx
  else []

/-- `ProjectGenerator._render_vector_db`. -/
def render_vector_db (ctx : List (String × CtxVal)) : List FsAction :=
  renderT "new/src/vector_store.py.j2" "src/vector_store.py" ctx

/-- `ProjectGenerator._render_ui_framework`. -/
def render_ui_framework (c : ProjectConfig) (ctx : List (String × CtxVal)) : List FsAction :=
  if c.ui_framework = "streamlit" then
    renderT "new/app_streamlit.py.j2" "app.py" ctx
  else if c.ui_framework = "gradio" then
    renderT "new/app_gradio.py.j2" "app.py" ctx
  else if c.ui_framework = "fastapi" then
    renderT "new/app_fastapi.py.j2" "app.py" ctx
  else []

/-- `ProjectGenerator._render_dependency_files`. -/
def render_dependency_files (c : ProjectConfig) (ctx : List (String × CtxVal)) : List FsAction :=
  if c.dependency_manager = "poetry" then
    renderT "new/pyproject.toml.j2" "pyproject.toml" ctx
  else
    renderT "new/requirements.txt.j2" "requirements.txt" ctx
      ++ renderT "new/requirements-dev.txt.j2" "requirements-dev.txt" ctx

/-- `ProjectGenerator._render_docker_files`. -/
def render_docker_files (c : ProjectConfig) (ctx : List (String × CtxVal)) : List FsAction :=
  if c.enable_docker then
    renderT "new/Dockerfile.j2" "Dockerfile" ctx
      ++ renderT "new/docker-compose.yml.j2" "docker-compose.yml" ctx
  else []

/-- `ProjectGenerator._render_observability`. -/
def render_observability (c : ProjectConfig) (ctx : List (String × CtxVal)) : List FsAction :=
  if c.enable_observability then
    renderT "new/src/observability.py.j2" "src/observability.py" ctx
  else []

/-- `ProjectGenerator.generate`: the full effect sequence, in source order
(the leading `mkdir ""` is `destination.mkdir(parents=True, exist_ok=True)`
on the destination root). -/
def generate (c : ProjectConfig) : List FsAction :=
  let ctx := build_context c
  .mkdir "" ::
    (render_base_structure ctx
      ++ render_llm_provider ctx
      ++ render_orchestrator c ctx
      ++ render_vector_db ctx
      ++ render_ui_framework c ctx
      ++ render_dependency_files c ctx
      ++ render_docker_files c ctx
      ++ render_observability c ctx)

/-- The destination paths of the file writes among a list of actions. -/
def writePaths (acts : List FsAction) : List String :=
  acts.filterMap (fun a => match a with | .write p _ => some p | _ => none)

/-- The (destination path, template name) pairs of the rendered writes. -/
def writeTemplates (acts : List FsAction) : List (String × String) :=
  acts.filterMap (fun a =>
    match a with | .write p (.rendered t _) => some (p, t) | _ => none)

/-- The destination paths written by `_render_base_structure`, in order. -/
def basePaths : List String :=
  ["README.md", ".env.example", ".gitignore", "Makefile", "src/__init__.py", "src/config.py",
   "src/prompts/__init__.py", "src/prompts/loader.py", "src/prompts/templates.yaml",
   "src/utils/__init__.py", "src/utils/logger.py", "tests/__init__.py", "tests/conftest.py",
   "tests/test_example.py", "pytest.ini"]

/-! ### Filesystem state

Files are a map from path to optional content (a write overwrites
unconditionally); directories are a list compared by membership.
-/

/-- Filesystem state under the destination root. -/
structure FS where
  files : String → Option FileVal
  dirs : List String

/-- The content at path `p`, if a file exists there. -/
def FS.look (fs : FS) (p : String) : Option FileVal := fs.files p

/-- The destination root before generation: no files, no directories. -/
def emptyFS : FS := ⟨fun _ => none, []⟩

/-- `d` and all its ancestors, as created by `mkdir(parents=True)`. -/
def ancestorDirs (d : String) : List String :=
  let parts := d.splitOn "/"
  (List.range parts.length).map (fun i => String.intercalate "/" (parts.take (i + 1)))

/-- Apply one action: `mkdir` is `exist_ok=True` (directories are a set, so
re-adding is harmless), `write` is `Path.write_text` (unconditional
overwrite), `touch` creates an empty file only when the path is absent and
leaves existing content alone. -/
def applyAct (fs : FS) : FsAction → FS
  | .mkdir d => { fs with dirs := ancestorDirs d ++ fs.dirs }
  | .write p v => { fs with files := fun x => if x = p then some v else fs.files x }
  | .touch p =>
      if (fs.files p).isSome then fs
      else { fs with files := fun x => if x = p then some .emptyFile else fs.files x }

/-- Run a whole action sequence left to right. -/
def applyActions (acts : List FsAction) (fs : FS) : FS := acts.foldl applyAct fs

/-- The content of the last `write` to `p` in the sequence, if any. -/
def lastWrite : List FsAction → String → Option FileVal
  | [], _ => none
  | a :: L, p =>
    match lastWrite L p with
    | some v => some v
    | none =>
      match a with
      | .write q v => if p = q then some v else none
      | _ => none

/-- Whether the sequence contains a `touch` of `p`. -/
def touchesPath : List FsAction → String → Bool
  | [], _ => false
  | a :: L, p => (match a with | .touch q => p == q | _ => false) || touchesPath L p

/-- All directories the sequence creates (ancestors included). -/
def mkdirDirs : List FsAction → List String
  | [] => []
  | a :: L => (match a with | .mkdir d => ancestorDirs d | _ => []) ++ mkdirDirs L

/-- Two filesystem states holding the same set of files with the same
contents and the same set of directories. -/
def fsEquiv (a b : FS) : Prop :=
  (∀ p, a.look p = b.look p) ∧ (∀ d, d ∈ a.dirs ↔ d ∈ b.dirs)

/-! ### Destination-name derivation of `template_engine.render_templates`

The source does `if dest.suffix == '.j2': dest = dest.with_suffix('')`.
`pathlib` computes `suffix` from the final path component (`name`): it is
`name[i:]` where `i` is the index of the last `'.'`, provided `0 < i <
len(name) - 1`, and empty otherwise; `with_suffix('')` removes exactly the
suffix's characters from the end.
-/

/-- The final path component (`Path.name`): the part after the last `'/'`. -/
def afterLastSlash : List Char → List Char
  | [] => []
  | c :: cs => if '/' ∈ c :: cs then afterLastSlash cs else c :: cs

/-- Index of the last `'.'` (Python's `str.rfind('.')`, `none` when absent). -/
def rfindDot : List Char → Option Nat
  | [] => none
  | c :: cs =>
    match rfindDot cs with
    | some i => some (i + 1)
    | none => if c = '.' then some 0 else none

/-- `PurePath.suffix` of a relative path string. -/
def pySuffix (p : String) : String :=
  match rfindDot (afterLastSlash p.data) with
  | some i =>
    if 0 < i ∧ i < (afterLastSlash p.data).length - 1
    then ⟨(afterLastSlash p.data).drop i⟩ else ""
  | none => ""

/-- The destination filename `render_templates` derives from a template
source identifier: `with_suffix('')` applied when the suffix is `.j2`. -/
def destName (p : String) : String :=
  if pySuffix p = ".j2" then ⟨p.data.take (p.data.length - 3)⟩ else p

/-- The spec-side reading of "the identifier carries the marker suffix
`.j2`": the identifier ends in `.j2` and that ending belongs to a final path
component with a non-empty stem (a plain dotfile named exactly `.j2` does
not carry a suffix). -/
def hasJ2Ext (p : String) : Bool :=
  match p.data.reverse with
  | '2' :: 'j' :: '.' :: c :: _ => c != '/'
  | _ => false

/-! ### The non-interactive branch of `cli.create` -/

/-- The argument/option values `create` receives (`None` when the user does
not pass the option); `dependency_manager`, `enable_docker` and
`interactive` have the defaults of the source. -/
structure CreateOpts where
  project_name : Option String
  llm_provider : Option String
  orchestrator : Option String
  vector_db : Option String
  ui_framework : Option String
  dependency_manager : String := "pip"
  enable_docker : Bool := true
  interactive : Bool := false
deriving DecidableEq, Repr

/-- `use_interactive` as computed in `create`. -/
def useInteractive (o : CreateOpts) : Bool :=
  o.interactive || o.project_name.isNone || o.llm_provider.isNone ||
    o.orchestrator.isNone || o.vector_db.isNone || o.ui_framework.isNone

/-- The configuration `create` builds when it does not go interactive: the
supplied options with `enable_observability=False, observability_tool=None`
hard-coded, validated by the `ProjectConfig` constructor (the interactive
path, which prompts the user, yields `none` here as it is outside this
model; so does the unreachable case of a missing option, which
`use_interactive` already rules out). `mkCliConfig` is the argument of the
`ProjectConfig(...)` call in the non-interactive branch. -/
def mkCliConfig (o : CreateOpts) (pn lp orc vdb ui : String) : ProjectConfig :=
  { project_name := pn, llm_provider := lp, orchestrator := orc, vector_db := vdb,
    ui_framework := ui, dependency_manager := o.dependency_manager,
    enable_observability := false, observability_tool := none,
    enable_docker := o.enable_docker }

def createConfig (o : CreateOpts) : Option ProjectConfig :=
  if useInteractive o then none
  else
    match o.project_name, o.llm_provider, o.orchestrator, o.vector_db, o.ui_framework with
    | some pn, some lp, some orc, some vdb, some ui =>
      match postInit (mkCliConfig o pn lp orc vdb ui) with
      | .ok _ => some (mkCliConfig o pn lp orc vdb ui)
      | .error _ => none
    | _, _, _, _, _ => none

/-! ### Sample configurations used as concrete inputs -/

/-- The configuration of the repository's own basic generator test. -/
def cSample : ProjectConfig :=
  { project_name := "test-app", llm_provider := "openai", orchestrator := "langchain",
    vector_db := "chromadb", ui_framework := "streamlit", dependency_manager := "pip",
    enable_observability := false, observability_tool := none, enable_docker := true }

/-- A valid configuration selecting the `local` provider and the `none`
sentinels. -/
def cLocal : ProjectConfig :=
  { project_name := "test-app", llm_provider := "local", orchestrator := "none",
    vector_db := "chromadb", ui_framework := "none", dependency_manager := "pip",
    enable_observability := false, observability_tool := none, enable_docker := true }

/-- Observability enabled but no tool chosen: the combination the spec calls
inconsistent. -/
def cObsNoTool : ProjectConfig :=
  { project_name := "test-app", llm_provider := "openai", orchestrator := "langchain",
    vector_db := "chromadb", ui_framework := "streamlit", dependency_manager := "pip",
    enable_observability := true, observability_tool := none, enable_docker := true }

/-- Observability disabled yet a tool set: the converse inconsistency. -/
def cToolNoObs : ProjectConfig :=
  { project_name := "test-app", llm_provider := "openai", orchestrator := "langchain",
    vector_db := "chromadb", ui_framework := "streamlit", dependency_manager := "pip",
    enable_observability := false, observability_tool := some "wandb", enable_docker := true }

/-- An empty project name with every other field valid. -/
def cEmptyName : ProjectConfig :=
  { project_name := "", llm_provider := "openai", orchestrator := "langchain",
    vector_db := "chromadb", ui_framework := "streamlit", dependency_manager := "pip",
    enable_observability := false, observability_tool := none, enable_docker := true }

/-- The poetry variant of the sample configuration. -/
def cPoetry : ProjectConfig :=
  { project_name := "test-app", llm_provider := "openai", orchestrator := "langchain",
    vector_db := "chromadb", ui_framework := "streamlit", dependency_manager := "poetry",
    enable_observability := false, observability_tool := none, enable_docker := false }

/-- The FastAPI variant of the sample configuration. -/
def cFastapi : ProjectConfig :=
  { project_name := "test-app", llm_provider := "openai", orchestrator := "langchain",
    vector_db := "chromadb", ui_framework := "fastapi", dependency_manager := "pip",
    enable_observability := false, observability_tool := none, enable_docker := true }

/-- The options of the test-suite's non-interactive CLI invocation. -/
def oSample : CreateOpts :=
  { project_name := some "proj", llm_provider := some "anthropic",
    orchestrator := some "langchain", vector_db := some "chromadb",
    ui_framework := some "streamlit", dependency_manager := "pip",
    enable_docker := true, interactive := false }

/-- The configuration built by the sample non-interactive CLI call. -/
def cProj : ProjectConfig :=
  { project_name := "proj", llm_provider := "anthropic", orchestrator := "langchain",
    vector_db := "chromadb", ui_framework := "streamlit", dependency_manager := "pip",
    enable_observability := false, observability_tool := none, enable_docker := true }

/-! ### Properties -/



lemma postInit_ok_iff (c : ProjectConfig) :
    postInit c = .ok () ↔
      (c.llm_provider ∈ valid_llm_providers ∧
       c.orchestrator ∈ valid_orchestrators ∧
       c.vector_db ∈ valid_vector_dbs ∧
       c.ui_framework ∈ valid_ui_frameworks ∧
       c.dependency_manager ∈ valid_dependency_managers ∧
       c.observability_tool ∈ valid_observability_tools) := by
  unfold postInit
  split_ifs <;> simp_all

lemma wp_append (a b : List FsAction) : writePaths (a ++ b) = writePaths a ++ writePaths b :=
  List.filterMap_append a b _

lemma wp_renderT (t d : String) (ctx : List (String × CtxVal)) :
    writePaths (renderT t d ctx) = [d] := rfl

lemma wp_mkdirs : writePaths (baseDirs.map .mkdir) = [] := rfl

lemma wp_touches :
    writePaths (["data/cache", "data/outputs", "data/embeddings", "notebooks"].map
      (fun d => FsAction.touch (d ++ "/.gitkeep"))) = [] := rfl

lemma wp_base (ctx : List (String × CtxVal)) :
    writePaths (render_base_structure ctx) = basePaths := by
  simp only [render_base_structure, wp_append, wp_renderT, wp_mkdirs, wp_touches]
  rfl

lemma wp_llm (ctx : List (String × CtxVal)) :
    writePaths (render_llm_provider ctx) = ["src/llm/__init__.py", "src/llm/client.py"] := by
  simp only [render_llm_provider, wp_append, wp_renderT]
  rfl

lemma wp_orch (c : ProjectConfig) (ctx : List (String × CtxVal)) :
    writePaths (render_orchestrator c ctx) =
      if c.orchestrator ≠ "none" then ["src/rag_pipeline.py"] else [] := by
  unfold render_orchestrator
  split <;> rfl

lemma wp_vec (ctx : List (String × CtxVal)) :
    writePaths (render_vector_db ctx) = ["src/vector_store.py"] := rfl

lemma wp_ui (c : ProjectConfig) (ctx : List (String × CtxVal)) :
    writePaths (render_ui_framework c ctx) =
      if c.ui_framework = "streamlit" ∨ c.ui_framework = "gradio" ∨ c.ui_framework = "fastapi"
      then ["app.py"] else [] := by
  unfold render_ui_framework
  split_ifs <;> first | rfl | tauto

lemma wp_dep (c : ProjectConfig) (ctx : List (String × CtxVal)) :
    writePaths (render_dependency_files c ctx) =
      if c.dependency_manager = "poetry" then ["pyproject.toml"]
      else ["requirements.txt", "requirements-dev.txt"] := by
  unfold render_dependency_files
  split
  · rfl
  · simp only [wp_append, wp_renderT]
    rfl

lemma wp_docker (c : ProjectConfig) (ctx : List (String × CtxVal)) :
    writePaths (render_docker_files c ctx) =
      if c.enable_docker then ["Dockerfile", "docker-compose.yml"] else [] := by
  unfold render_docker_files
  split
  · simp only [wp_append, wp_renderT]
    rfl
  · rfl

lemma wp_obs (c : ProjectConfig) (ctx : List (String × CtxVal)) :
    writePaths (render_observability c ctx) =
      if c.enable_observability then ["src/observability.py"] else [] := by
  unfold render_observability
  split <;> rfl

/-- `generate` writes exactly: the base files, the two LLM files, the RAG
pipeline when an orchestrator is chosen, the vector store, `app.py` for a
real UI framework, the dependency files of the chosen manager, the Docker
pair when enabled and the observability module when enabled. -/
lemma writePaths_generate (c : ProjectConfig) :
    writePaths (generate c) =
      basePaths ++ ["src/llm/__init__.py", "src/llm/client.py"]
        ++ (if c.orchestrator ≠ "none" then ["src/rag_pipeline.py"] else [])
        ++ ["src/vector_store.py"]
        ++ (if c.ui_framework = "streamlit" ∨ c.ui_framework = "gradio" ∨ c.ui_framework = "fastapi"
            then ["app.py"] else [])
        ++ (if c.dependency_manager = "poetry" then ["pyproject.toml"]
            else ["requirements.txt", "requirements-dev.txt"])
        ++ (if c.enable_docker then ["Dockerfile", "docker-compose.yml"] else [])
        ++ (if c.enable_observability then ["src/observability.py"] else []) := by
  show writePaths (.mkdir "" :: (render_base_structure _ ++ render_llm_provider _
    ++ render_orchestrator c _ ++ render_vector_db _ ++ render_ui_framework c _
    ++ render_dependency_files c _ ++ render_docker_files c _ ++ render_observability c _)) = _
  rw [show ∀ l, writePaths (.mkdir "" :: l) = writePaths l from fun _ => rfl,
    wp_append, wp_append, wp_append, wp_append, wp_append, wp_append, wp_append,
    wp_base, wp_llm, wp_orch c, wp_vec, wp_ui c, wp_dep c, wp_docker c, wp_obs c]

lemma wt_append (a b : List FsAction) :
    writeTemplates (a ++ b) = writeTemplates a ++ writeTemplates b :=
  List.filterMap_append a b _

lemma wt_renderT (t d : String) (ctx : List (String × CtxVal)) :
    writeTemplates (renderT t d ctx) = [(d, t)] := rfl

lemma wt_ui (c : ProjectConfig) (ctx : List (String × CtxVal)) :
    writeTemplates (render_ui_framework c ctx) =
      if c.ui_framework = "streamlit" then [("app.py", "new/app_streamlit.py.j2")]
      else if c.ui_framework = "gradio" then [("app.py", "new/app_gradio.py.j2")]
      else if c.ui_framework = "fastapi" then [("app.py", "new/app_fastapi.py.j2")]
      else [] := by
  unfold render_ui_framework
  split_ifs <;> rfl

/-- Among the writes of `generate`, the ones whose destination is `app.py`
carry exactly the template selected by `ui_framework`. -/
lemma ui_writeTemplates_generate (c : ProjectConfig) (t : String) :
    ("app.py", t) ∈ writeTemplates (generate c) ↔
      ("app.py", t) ∈ writeTemplates (render_ui_framework c (build_context c)) := by
  show ("app.py", t) ∈ writeTemplates (.mkdir "" :: (render_base_structure _
    ++ render_llm_provider _ ++ render_orchestrator c _ ++ render_vector_db _
    ++ render_ui_framework c _ ++ render_dependency_files c _ ++ render_docker_files c _
    ++ render_observability c _)) ↔ _
  rw [show ∀ l, writeTemplates (.mkdir "" :: l) = writeTemplates l from fun _ => rfl,
    wt_append, wt_append, wt_append, wt_append, wt_append, wt_append, wt_append]
  have wt_mkdirs : writeTemplates (baseDirs.map .mkdir) = [] := rfl
  have wt_touches :
      writeTemplates (["data/cache", "data/outputs", "data/embeddings", "notebooks"].map
        (fun d => FsAction.touch (d ++ "/.gitkeep"))) = [] := rfl
  have hbase : ("app.py", t) ∉ writeTemplates (render_base_structure (build_context c)) := by
    simp only [render_base_structure, wt_append, wt_renderT, wt_mkdirs, wt_touches]
    simp
  have hllm : ("app.py", t) ∉ writeTemplates (render_llm_provider (build_context c)) := by
    simp only [render_llm_provider, wt_append, wt_renderT]
    simp
  have wt_nil : writeTemplates [] = [] := rfl
  have horch : ("app.py", t) ∉ writeTemplates (render_orchestrator c (build_context c)) := by
    unfold render_orchestrator
    split
    · rw [wt_renderT]
      simp
    · rw [wt_nil]
      exact List.not_mem_nil _
  have hvec : ("app.py", t) ∉ writeTemplates (render_vector_db (build_context c)) := by
    show ("app.py", t) ∉ writeTemplates (renderT _ _ _)
    rw [wt_renderT]
    simp
  have hdep : ("app.py", t) ∉ writeTemplates (render_dependency_files c (build_context c)) := by
    unfold render_dependency_files
    split
    · rw [wt_renderT]
      simp
    · rw [wt_append, wt_renderT, wt_renderT]
      simp
  have hdock : ("app.py", t) ∉ writeTemplates (render_docker_files c (build_context c)) := by
    unfold render_docker_files
    split
    · rw [wt_append, wt_renderT, wt_renderT]
      simp
    · rw [wt_nil]
      exact List.not_mem_nil _
  have hobs : ("app.py", t) ∉ writeTemplates (render_observability c (build_context c)) := by
    unfold render_observability
    split
    · rw [wt_renderT]
      simp
    · rw [wt_nil]
      exact List.not_mem_nil _
  simp only [List.mem_append, hbase, hllm, horch, hvec, hdep, hdock, hobs,
    false_or, or_false]

lemma applyActions_cons (a : FsAction) (L : List FsAction) (fs : FS) :
    applyActions (a :: L) fs = applyActions L (applyAct fs a) := rfl

lemma look_applyAct_mkdir (fs : FS) (p d : String) :
    (applyAct fs (.mkdir d)).look p = fs.look p := rfl

lemma look_applyAct_write (fs : FS) (p q : String) (v : FileVal) :
    (applyAct fs (.write q v)).look p = if p = q then some v else fs.look p := rfl

lemma look_applyAct_touch (fs : FS) (p q : String) :
    (applyAct fs (.touch q)).look p =
      if p = q then some ((fs.look p).getD .emptyFile) else fs.look p := by
  show (if (fs.files q).isSome then fs
      else { fs with files := fun x => if x = q then some .emptyFile else fs.files x }).look p = _
  by_cases hs : (fs.files q).isSome
  · rw [if_pos hs]
    by_cases h : p = q
    · subst h
      rcases hl : fs.files p with _ | w
      · rw [hl] at hs
        simp at hs
      · simp [FS.look, hl]
    · rw [if_neg h]
  · rw [if_neg hs]
    by_cases h : p = q
    · subst h
      have hl : fs.files p = none := by
        rcases hl : fs.files p with _ | w
        · rfl
        · rw [hl] at hs
          simp at hs
      simp [FS.look, hl]
    · simp [FS.look, if_neg h]

lemma dirs_applyAct_mkdir (fs : FS) (d : String) :
    (applyAct fs (.mkdir d)).dirs = ancestorDirs d ++ fs.dirs := rfl

lemma dirs_applyAct_write (fs : FS) (q : String) (v : FileVal) :
    (applyAct fs (.write q v)).dirs = fs.dirs := rfl

lemma dirs_applyAct_touch (fs : FS) (q : String) :
    (applyAct fs (.touch q)).dirs = fs.dirs := by
  show (if (fs.files q).isSome then fs
      else { fs with files := fun x => if x = q then some .emptyFile else fs.files x }).dirs = _
  split <;> rfl

/-- What a run leaves at path `p`: the last write there if one exists;
otherwise, if the path is touched, the prior content or a fresh empty file;
otherwise the prior content. -/
lemma look_applyActions (L : List FsAction) (fs : FS) (p : String) :
    (applyActions L fs).look p =
      match lastWrite L p with
      | some v => some v
      | none =>
        if touchesPath L p then some ((fs.look p).getD .emptyFile) else fs.look p := by
  induction L generalizing fs with
  | nil => rfl
  | cons a L ih =>
    rw [applyActions_cons, ih]
    rcases hlw : lastWrite L p with _ | v
    · cases a with
      | mkdir d =>
        simp only [lastWrite, hlw, touchesPath, Bool.false_or, look_applyAct_mkdir]
      | write q v =>
        rw [look_applyAct_write]
        by_cases hq : p = q
        · rw [if_pos hq]
          simp only [lastWrite, hlw, if_pos hq]
          split <;> simp
        · rw [if_neg hq]
          simp only [lastWrite, hlw, if_neg hq, touchesPath, Bool.false_or]
      | touch q =>
        rw [look_applyAct_touch]
        by_cases hq : p = q
        · rw [if_pos hq]
          have ht : touchesPath (FsAction.touch q :: L) p = true := by
            simp [touchesPath, hq]
          simp only [lastWrite, hlw, ht, if_pos rfl]
          split <;> simp
        · rw [if_neg hq]
          have ht : touchesPath (FsAction.touch q :: L) p = touchesPath L p := by
            simp [touchesPath, hq]
          simp only [lastWrite, hlw, ht]
    · simp only [lastWrite, hlw]

/-- Directories after a run: those the run creates plus the prior ones. -/
lemma dirs_applyActions (L : List FsAction) (fs : FS) (d : String) :
    d ∈ (applyActions L fs).dirs ↔ d ∈ mkdirDirs L ∨ d ∈ fs.dirs := by
  induction L generalizing fs with
  | nil => simp [applyActions, mkdirDirs]
  | cons a L ih =>
    rw [applyActions_cons, ih]
    cases a with
    | mkdir x =>
      rw [dirs_applyAct_mkdir]
      simp only [mkdirDirs, List.mem_append]
      tauto
    | write q v =>
      rw [dirs_applyAct_write]
      simp [mkdirDirs]
    | touch q =>
      rw [dirs_applyAct_touch]
      simp [mkdirDirs]

/-- Replaying any action sequence on its own result changes nothing:
writes redo the same contents, touches find their files present, directory
creation is idempotent. -/
theorem applyActions_idem (L : List FsAction) (fs : FS) :
    fsEquiv (applyActions L (applyActions L fs)) (applyActions L fs) := by
  constructor
  · intro p
    rw [look_applyActions, look_applyActions L fs]
    rcases hlw : lastWrite L p with _ | v
    · rcases ht : touchesPath L p
      · simp only [look_applyActions, hlw, ht, Bool.false_eq_true, if_false]
      · simp only [look_applyActions, hlw, ht, if_true]
        simp
    · simp
  · intro d
    rw [dirs_applyActions, dirs_applyActions]
    tauto

lemma slash_not_mem_afterLastSlash (s : List Char) : '/' ∉ afterLastSlash s := by
  induction s with
  | nil => simp [afterLastSlash]
  | cons c cs ih =>
    unfold afterLastSlash
    split
    · exact ih
    · simp_all

lemma afterLastSlash_of_not_mem (s : List Char) (h : '/' ∉ s) : afterLastSlash s = s := by
  cases s with
  | nil => rfl
  | cons c cs =>
    unfold afterLastSlash
    rw [if_neg h]

lemma afterLastSlash_append (s t : List Char) (h : '/' ∉ t) :
    afterLastSlash (s ++ t) = afterLastSlash s ++ t := by
  induction s with
  | nil => simp [afterLastSlash_of_not_mem t h, afterLastSlash]
  | cons c cs ih =>
    show afterLastSlash (c :: (cs ++ t)) = _
    unfold afterLastSlash
    by_cases hc : '/' ∈ c :: cs
    · rw [if_pos (by simp only [List.mem_cons, List.mem_append] at hc ⊢; tauto), ih, if_pos hc]
    · have : '/' ∉ c :: (cs ++ t) := by
        simp only [List.mem_cons, List.mem_append] at hc ⊢
        tauto
      rw [if_neg this, if_neg hc]
      rfl

lemma exists_afterLastSlash_decomp (s : List Char) :
    ∃ pre, s = pre ++ afterLastSlash s := by
  induction s with
  | nil => exact ⟨[], rfl⟩
  | cons c cs ih =>
    unfold afterLastSlash
    split
    · obtain ⟨pre, hpre⟩ := ih
      exact ⟨c :: pre, by rw [List.cons_append, ← hpre]⟩
    · exact ⟨[], rfl⟩

lemma rfindDot_of_not_mem (t : List Char) (h : '.' ∉ t) : rfindDot t = none := by
  induction t with
  | nil => rfl
  | cons c cs ih =>
    unfold rfindDot
    rw [ih (fun hm => h (List.mem_cons_of_mem c hm))]
    rw [if_neg (fun hc => h (by rw [← hc]; exact List.mem_cons_self c cs))]

lemma rfindDot_append_dot (s t : List Char) (h : '.' ∉ t) :
    rfindDot (s ++ '.' :: t) = some s.length := by
  induction s with
  | nil =>
    show rfindDot ('.' :: t) = some 0
    unfold rfindDot
    rw [rfindDot_of_not_mem t h, if_pos rfl]
  | cons c cs ih =>
    show rfindDot (c :: (cs ++ '.' :: t)) = some (cs.length + 1)
    unfold rfindDot
    rw [ih]

lemma pySuffix_of_hasJ2Ext (p : String) (h : hasJ2Ext p = true) :
    ∃ m : List Char, p.data = m ++ ('.' :: 'j' :: '2' :: []) ∧ m ≠ [] ∧ pySuffix p = ".j2" := by
  unfold hasJ2Ext at h
  split at h
  case h_2 => exact absurd h (by simp)
  case h_1 c r heq =>
    have hc : c ≠ '/' := by simpa using h
    have hp : p.data = (r.reverse ++ [c]) ++ ('.' :: 'j' :: '2' :: []) := by
      have h2 := congrArg List.reverse heq
      simp only [List.reverse_reverse] at h2
      rw [h2]
      simp
    refine ⟨r.reverse ++ [c], hp, by simp, ?_⟩
    have hname : afterLastSlash p.data =
        afterLastSlash (r.reverse ++ [c]) ++ ('.' :: 'j' :: '2' :: []) := by
      rw [hp, afterLastSlash_append _ _ (by decide)]
    have hm : afterLastSlash (r.reverse ++ [c]) = afterLastSlash r.reverse ++ [c] :=
      afterLastSlash_append _ [c] (by simpa using (Ne.symm hc))
    have hmlen : 0 < (afterLastSlash (r.reverse ++ [c])).length := by
      rw [hm]
      simp
    unfold pySuffix
    rw [hname, rfindDot_append_dot _ _ (by decide)]
    dsimp only
    rw [if_pos ⟨hmlen, by simp⟩, List.drop_left]

lemma hasJ2Ext_of_pySuffix (p : String) (h : pySuffix p = ".j2") : hasJ2Ext p = true := by
  unfold pySuffix at h
  split at h
  case h_2 => exact absurd h (by decide)
  case h_1 i heq =>
    split at h
    case isFalse => exact absurd h (by decide)
    case isTrue hcond =>
      have hdrop : (afterLastSlash p.data).drop i = ('.' :: 'j' :: '2' :: []) :=
        congrArg String.data h
      have htake : afterLastSlash p.data =
          (afterLastSlash p.data).take i ++ ('.' :: 'j' :: '2' :: []) := by
        conv_lhs => rw [← List.take_append_drop i (afterLastSlash p.data)]
        rw [hdrop]
      have hlen : ((afterLastSlash p.data).take i).length = i := by
        rw [List.length_take]
        have := List.length_drop i (afterLastSlash p.data)
        rw [hdrop] at this
        simp at this
        omega
      have hne : (afterLastSlash p.data).take i ≠ [] := by
        intro hnil
        rw [hnil] at hlen
        simp at hlen
        omega
      rcases ((afterLastSlash p.data).take i).eq_nil_or_concat' with hnil | ⟨m, c, hmc⟩
      · exact absurd hnil hne
      have hcslash : c ≠ '/' := by
        intro hcs
        apply slash_not_mem_afterLastSlash p.data
        rw [htake, hmc, hcs]
        simp
      obtain ⟨pre, hpre⟩ := exists_afterLastSlash_decomp p.data
      have hrev : p.data.reverse = '2' :: 'j' :: '.' :: c :: (m.reverse ++ pre.reverse) := by
        rw [hpre, htake, hmc]
        simp
      unfold hasJ2Ext
      rw [hrev]
      simpa using hcslash

lemma trueFlags_llm (c : ProjectConfig) (h : c.llm_provider ∈ valid_llm_providers) :
    trueFlags c llmFlagKeys ≤ 1 := by
  obtain ⟨pn, lp, orc, vdb, ui, dep, eo, ot, ed⟩ := c
  simp only [valid_llm_providers, List.mem_cons, List.not_mem_nil, or_false] at h
  rcases h with rfl | rfl | rfl | rfl | rfl <;> exact of_decide_eq_true rfl

lemma trueFlags_orch (c : ProjectConfig) (h : c.orchestrator ∈ valid_orchestrators) :
    trueFlags c orchFlagKeys ≤ 1 := by
  obtain ⟨pn, lp, orc, vdb, ui, dep, eo, ot, ed⟩ := c
  simp only [valid_orchestrators, List.mem_cons, List.not_mem_nil, or_false] at h
  rcases h with rfl | rfl | rfl | rfl <;> exact of_decide_eq_true rfl

lemma trueFlags_vec (c : ProjectConfig) (h : c.vector_db ∈ valid_vector_dbs) :
    trueFlags c vecFlagKeys = 1 := by
  obtain ⟨pn, lp, orc, vdb, ui, dep, eo, ot, ed⟩ := c
  simp only [valid_vector_dbs, List.mem_cons, List.not_mem_nil, or_false] at h
  rcases h with rfl | rfl | rfl | rfl <;> exact of_decide_eq_true rfl

lemma trueFlags_ui (c : ProjectConfig) (h : c.ui_framework ∈ valid_ui_frameworks) :
    trueFlags c uiFlagKeys ≤ 1 := by
  obtain ⟨pn, lp, orc, vdb, ui, dep, eo, ot, ed⟩ := c
  simp only [valid_ui_frameworks, List.mem_cons, List.not_mem_nil, or_false] at h
  rcases h with rfl | rfl | rfl | rfl <;> exact of_decide_eq_true rfl

lemma trueFlags_dep (c : ProjectConfig) (h : c.dependency_manager ∈ valid_dependency_managers) :
    trueFlags c depFlagKeys ≤ 1 := by
  obtain ⟨pn, lp, orc, vdb, ui, dep, eo, ot, ed⟩ := c
  simp only [valid_dependency_managers, List.mem_cons, List.not_mem_nil, or_false] at h
  rcases h with rfl | rfl <;> exact of_decide_eq_true rfl

lemma trueFlags_obs (c : ProjectConfig) (h : c.observability_tool ∈ valid_observability_tools) :
    trueFlags c obsFlagKeys ≤ 1 := by
  obtain ⟨pn, lp, orc, vdb, ui, dep, eo, ot, ed⟩ := c
  simp only [valid_observability_tools, List.mem_cons, List.not_mem_nil, or_false] at h
  rcases h with rfl | rfl | rfl <;> exact of_decide_eq_true rfl

lemma mem_ite_list {α : Type} (a : α) (P : Prop) [Decidable P] (l1 l2 : List α) :
    a ∈ (if P then l1 else l2) ↔ (P ∧ a ∈ l1) ∨ (¬P ∧ a ∈ l2) := by
  split <;> simp [*]

/-- C1 counterexample: the claim fails as stated. `cLocal` is a valid
configuration (provider `local`, orchestrator `none`, UI `none`), yet the
context has no `use_local` entry at all, and for the llm, orchestrator, UI,
dependency-manager and observability families no `use_*` flag is true, so
"one entry per possible value" and "exactly one true per field" are both
violated. -/
theorem C1_counterexample :
    postInit cLocal = .ok () ∧
    (build_context cLocal).lookup "use_local" = none ∧
    trueFlags cLocal llmFlagKeys = 0 ∧
    trueFlags cLocal orchFlagKeys = 0 ∧
    trueFlags cLocal uiFlagKeys = 0 ∧
    trueFlags cLocal depFlagKeys = 0 ∧
    trueFlags cLocal obsFlagKeys = 0 :=
  ⟨rfl, rfl, rfl, rfl, rfl, rfl, rfl⟩

/-- C1 amended: for every valid configuration the context carries the
seventeen flags the code actually emits (none for `local`, the `none`
sentinels, `pip`, or an unset observability tool), each true exactly when
its field holds its value; at most one flag per enum family is true, and
exactly one for the vector-db family (the only family with a flag for every
allowed value). -/
theorem C1_amended (c : ProjectConfig) (h : postInit c = .ok ()) :
    (ctxFlag c "use_openai" = some (c.llm_provider == "openai") ∧
     ctxFlag c "use_anthropic" = some (c.llm_provider == "anthropic") ∧
     ctxFlag c "use_azure" = some (c.llm_provider == "azure") ∧
     ctxFlag c "use_ollama" = some (c.llm_provider == "ollama") ∧
     ctxFlag c "use_langchain" = some (c.orchestrator == "langchain") ∧
     ctxFlag c "use_llamaindex" = some (c.orchestrator == "llamaindex") ∧
     ctxFlag c "use_dspy" = some (c.orchestrator == "dspy") ∧
     ctxFlag c "use_pinecone" = some (c.vector_db == "pinecone") ∧
     ctxFlag c "use_chromadb" = some (c.vector_db == "chromadb") ∧
     ctxFlag c "use_qdrant" = some (c.vector_db == "qdrant") ∧
     ctxFlag c "use_pgvector" = some (c.vector_db == "pgvector") ∧
     ctxFlag c "use_streamlit" = some (c.ui_framework == "streamlit") ∧
     ctxFlag c "use_gradio" = some (c.ui_framework == "gradio") ∧
     ctxFlag c "use_fastapi" = some (c.ui_framework == "fastapi") ∧
     ctxFlag c "use_poetry" = some (c.dependency_manager == "poetry") ∧
     ctxFlag c "use_langsmith" = some (c.observability_tool == some "langsmith") ∧
     ctxFlag c "use_wandb" = some (c.observability_tool == some "wandb")) ∧
    ((build_context c).lookup "use_local" = none ∧
     (build_context c).lookup "use_none" = none ∧
     (build_context c).lookup "use_pip" = none) ∧
    (trueFlags c llmFlagKeys ≤ 1 ∧ trueFlags c orchFlagKeys ≤ 1 ∧
     trueFlags c vecFlagKeys = 1 ∧ trueFlags c uiFlagKeys ≤ 1 ∧
     trueFlags c depFlagKeys ≤ 1 ∧ trueFlags c obsFlagKeys ≤ 1) := by
  obtain ⟨h1, h2, h3, h4, h5, h6⟩ := (postInit_ok_iff c).mp h
  exact ⟨⟨rfl, rfl, rfl, rfl, rfl, rfl, rfl, rfl, rfl, rfl, rfl, rfl, rfl, rfl, rfl, rfl, rfl⟩,
    ⟨rfl, rfl, rfl⟩,
    trueFlags_llm c h1, trueFlags_orch c h2, trueFlags_vec c h3,
    trueFlags_ui c h4, trueFlags_dep c h5, trueFlags_obs c h6⟩

/-- C1 witness: the amended statement at the sample configuration. -/
theorem C1_witness :
    trueFlags cSample vecFlagKeys = 1 ∧ trueFlags cSample llmFlagKeys ≤ 1 :=
  ⟨((C1_amended cSample rfl).2.2).2.2.1, ((C1_amended cSample rfl).2.2).1⟩

/-- C2 counterexample: both "inconsistent" combinations construct without
error. `cObsNoTool` enables observability with the tool unset and
`cToolNoObs` sets a tool with observability disabled, and `__post_init__`
accepts both, so no `ConfigurationError` is raised at construction. -/
theorem C2_counterexample :
    cObsNoTool.enable_observability = true ∧ cObsNoTool.observability_tool = none ∧
    postInit cObsNoTool = .ok () ∧
    cToolNoObs.enable_observability = false ∧ cToolNoObs.observability_tool = some "wandb" ∧
    postInit cToolNoObs = .ok () :=
  ⟨rfl, rfl, rfl, rfl, rfl, rfl⟩

/-- C2 amended: construction never cross-checks `observability_tool` against
`enable_observability`; validation is entirely independent of
`enable_observability` (only membership of the tool in
`{langsmith, wandb, None}` is checked). -/
theorem C2_amended (c : ProjectConfig) (b : Bool) :
    postInit { c with enable_observability := b } = postInit c := rfl

/-- C3: construction succeeds exactly when every enum field is in its
allowed set, and an out-of-set field raises the `ValueError` whose message
names that field and interpolates the offending value (fields are checked
in source order, so each error equation assumes the earlier fields pass). -/
theorem C3_validation (c : ProjectConfig) :
    (postInit c = .ok () ↔
      (c.llm_provider ∈ valid_llm_providers ∧ c.orchestrator ∈ valid_orchestrators ∧
       c.vector_db ∈ valid_vector_dbs ∧ c.ui_framework ∈ valid_ui_frameworks ∧
       c.dependency_manager ∈ valid_dependency_managers ∧
       c.observability_tool ∈ valid_observability_tools)) ∧
    (c.llm_provider ∉ valid_llm_providers →
      postInit c = .error ("Invalid LLM provider: " ++ c.llm_provider)) ∧
    (c.llm_provider ∈ valid_llm_providers → c.orchestrator ∉ valid_orchestrators →
      postInit c = .error ("Invalid orchestrator: " ++ c.orchestrator)) ∧
    (c.llm_provider ∈ valid_llm_providers → c.orchestrator ∈ valid_orchestrators →
      c.vector_db ∉ valid_vector_dbs →
      postInit c = .error ("Invalid vector DB: " ++ c.vector_db)) ∧
    (c.llm_provider ∈ valid_llm_providers → c.orchestrator ∈ valid_orchestrators →
      c.vector_db ∈ valid_vector_dbs → c.ui_framework ∉ valid_ui_frameworks →
      postInit c = .error ("Invalid UI framework: " ++ c.ui_framework)) ∧
    (c.llm_provider ∈ valid_llm_providers → c.orchestrator ∈ valid_orchestrators →
      c.vector_db ∈ valid_vector_dbs → c.ui_framework ∈ valid_ui_frameworks →
      c.dependency_manager ∉ valid_dependency_managers →
      postInit c = .error ("Invalid dependency manager: " ++ c.dependency_manager)) ∧
    (c.llm_provider ∈ valid_llm_providers → c.orchestrator ∈ valid_orchestrators →
      c.vector_db ∈ valid_vector_dbs → c.ui_framework ∈ valid_ui_frameworks →
      c.dependency_manager ∈ valid_dependency_managers →
      c.observability_tool ∉ valid_observability_tools →
      postInit c = .error ("Invalid observability tool: " ++ optToPyStr c.observability_tool)) := by
  refine ⟨postInit_ok_iff c, ?_, ?_, ?_, ?_, ?_, ?_⟩
  · intro n1
    unfold postInit
    rw [if_pos n1]
  · intro h1 n2
    unfold postInit
    rw [if_neg (not_not_intro h1), if_pos n2]
  · intro h1 h2 n3
    unfold postInit
    rw [if_neg (not_not_intro h1), if_neg (not_not_intro h2), if_pos n3]
  · intro h1 h2 h3 n4
    unfold postInit
    rw [if_neg (not_not_intro h1), if_neg (not_not_intro h2), if_neg (not_not_intro h3),
      if_pos n4]
  · intro h1 h2 h3 h4 n5
    unfold postInit
    rw [if_neg (not_not_intro h1), if_neg (not_not_intro h2), if_neg (not_not_intro h3),
      if_neg (not_not_intro h4), if_pos n5]
  · intro h1 h2 h3 h4 h5 n6
    unfold postInit
    rw [if_neg (not_not_intro h1), if_neg (not_not_intro h2), if_neg (not_not_intro h3),
      if_neg (not_not_intro h4), if_neg (not_not_intro h5), if_pos n6]

/-- C3 witness: the characterization evaluated at one in-set configuration
and six single-fault variants of it. -/
theorem C3_witness :
    postInit cSample = .ok () ∧
    postInit { cSample with llm_provider := "invalid" } =
      .error "Invalid LLM provider: invalid" ∧
    postInit { cSample with orchestrator := "invalid" } =
      .error "Invalid orchestrator: invalid" ∧
    postInit { cSample with vector_db := "invalid" } =
      .error "Invalid vector DB: invalid" ∧
    postInit { cSample with ui_framework := "invalid" } =
      .error "Invalid UI framework: invalid" ∧
    postInit { cSample with dependency_manager := "invalid" } =
      .error "Invalid dependency manager: invalid" ∧
    postInit { cSample with observability_tool := some "invalid" } =
      .error "Invalid observability tool: invalid" :=
  ⟨(C3_validation cSample).1.mpr (by decide),
   (C3_validation _).2.1 (by decide),
   (C3_validation _).2.2.1 (by decide) (by decide),
   (C3_validation _).2.2.2.1 (by decide) (by decide) (by decide),
   (C3_validation _).2.2.2.2.1 (by decide) (by decide) (by decide) (by decide),
   (C3_validation _).2.2.2.2.2.1 (by decide) (by decide) (by decide) (by decide) (by decide),
   (C3_validation _).2.2.2.2.2.2 (by decide) (by decide) (by decide) (by decide) (by decide)
     (by decide)⟩

/-- C4: for every valid configuration, poetry mode writes the
`pyproject.toml` manifest and neither pip requirements file, while pip mode
writes both requirements files and no manifest (into a fresh destination,
the written paths are exactly the produced files). -/
theorem C4_dependency_files (c : ProjectConfig) (h : postInit c = .ok ()) :
    (c.dependency_manager = "poetry" →
      "pyproject.toml" ∈ writePaths (generate c) ∧
      "requirements.txt" ∉ writePaths (generate c) ∧
      "requirements-dev.txt" ∉ writePaths (generate c)) ∧
    (c.dependency_manager = "pip" →
      "requirements.txt" ∈ writePaths (generate c) ∧
      "requirements-dev.txt" ∈ writePaths (generate c) ∧
      "pyproject.toml" ∉ writePaths (generate c)) := by
  constructor
  · intro hdep
    rw [writePaths_generate]
    refine ⟨?_, ?_, ?_⟩ <;> simp [hdep, mem_ite_list, basePaths]
  · intro hdep
    rw [writePaths_generate]
    refine ⟨?_, ?_, ?_⟩ <;> simp [hdep, mem_ite_list, basePaths]

/-- C4 witness: the exclusivity at the poetry sample and the pip sample. -/
theorem C4_witness :
    ("pyproject.toml" ∈ writePaths (generate cPoetry) ∧
     "requirements.txt" ∉ writePaths (generate cPoetry) ∧
     "requirements-dev.txt" ∉ writePaths (generate cPoetry)) ∧
    ("requirements.txt" ∈ writePaths (generate cSample) ∧
     "requirements-dev.txt" ∈ writePaths (generate cSample) ∧
     "pyproject.toml" ∉ writePaths (generate cSample)) :=
  ⟨(C4_dependency_files cPoetry rfl).1 rfl, (C4_dependency_files cSample rfl).2 rfl⟩

/-- C5: for every valid configuration, each real UI framework yields exactly
one write to destination `app.py`, rendered from its own template
(`app_streamlit.py.j2`, `app_gradio.py.j2`, `app_fastapi.py.j2`
respectively), and `ui_framework="none"` yields no `app.py` at all. -/
theorem C5_ui_entry (c : ProjectConfig) (h : postInit c = .ok ()) :
    (c.ui_framework = "streamlit" →
      (writePaths (generate c)).count "app.py" = 1 ∧
      ("app.py", "new/app_streamlit.py.j2") ∈ writeTemplates (generate c)) ∧
    (c.ui_framework = "gradio" →
      (writePaths (generate c)).count "app.py" = 1 ∧
      ("app.py", "new/app_gradio.py.j2") ∈ writeTemplates (generate c)) ∧
    (c.ui_framework = "fastapi" →
      (writePaths (generate c)).count "app.py" = 1 ∧
      ("app.py", "new/app_fastapi.py.j2") ∈ writeTemplates (generate c)) ∧
    (c.ui_framework = "none" → "app.py" ∉ writePaths (generate c)) := by
  refine ⟨fun hui => ⟨?_, ?_⟩, fun hui => ⟨?_, ?_⟩, fun hui => ⟨?_, ?_⟩, fun hui => ?_⟩ <;>
    first
    | (rw [writePaths_generate]
       simp [hui, List.count_append, apply_ite (List.count "app.py"), mem_ite_list, basePaths])
    | (rw [ui_writeTemplates_generate, wt_ui]
       simp [hui])

/-- C5 witness: the UI selection at the streamlit sample and the fastapi
sample, and the absence of an entry point at the `none` sample. -/
theorem C5_witness :
    ((writePaths (generate cSample)).count "app.py" = 1 ∧
     ("app.py", "new/app_streamlit.py.j2") ∈ writeTemplates (generate cSample)) ∧
    ((writePaths (generate cFastapi)).count "app.py" = 1 ∧
     ("app.py", "new/app_fastapi.py.j2") ∈ writeTemplates (generate cFastapi)) ∧
    "app.py" ∉ writePaths (generate cLocal) :=
  ⟨(C5_ui_entry cSample rfl).1 rfl, (C5_ui_entry cFastapi rfl).2.2.1 rfl,
   (C5_ui_entry cLocal rfl).2.2.2 rfl⟩

/-- C6: the destination name rule of `render_templates`. When the
identifier carries the `.j2` marker suffix — i.e. it ends in `.j2` as the
extension of its final component, which is pathlib's reading and excludes a
bare dotfile named `.j2` — exactly those three characters are stripped;
otherwise the identifier is unchanged. -/
theorem C6_destName (p : String) :
    (hasJ2Ext p = true →
      p.data = p.data.take (p.data.length - 3) ++ ('.' :: 'j' :: '2' :: []) ∧
      destName p = ⟨p.data.take (p.data.length - 3)⟩) ∧
    (hasJ2Ext p = false → destName p = p) := by
  constructor
  · intro h
    obtain ⟨m, hm, hne, hsuf⟩ := pySuffix_of_hasJ2Ext p h
    have hlen : p.data.length = m.length + 3 := by
      rw [hm]
      simp
    have htake : p.data.take (p.data.length - 3) = m := by
      rw [hlen, Nat.add_sub_cancel, hm, List.take_left]
    constructor
    · rw [htake]
      exact hm
    · unfold destName
      rw [if_pos hsuf]
  · intro h
    unfold destName
    rw [if_neg (fun hsuf => by rw [hasJ2Ext_of_pySuffix p hsuf] at h; cases h)]

/-- C6 witness: a stripped template identifier, an unchanged plain name, and
the unchanged dotfile `.j2`. -/
theorem C6_witness :
    destName "new/README.md.j2" = "new/README.md" ∧
    destName "Makefile" = "Makefile" ∧
    destName ".j2" = ".j2" :=
  ⟨((C6_destName "new/README.md.j2").1 (by decide)).2.trans (by decide),
   (C6_destName "Makefile").2 (by decide),
   (C6_destName ".j2").2 (by decide)⟩

/-- C7: generating twice into the same destination is the same as
generating once — every file write overwrites with identical content and
directory creation tolerates existing directories, so the resulting file
map and directory set are identical. -/
theorem C7_idempotent (c : ProjectConfig) (h : postInit c = .ok ()) (fs : FS) :
    fsEquiv (applyActions (generate c) (applyActions (generate c) fs))
      (applyActions (generate c) fs) :=
  applyActions_idem (generate c) fs

/-- C7 witness: idempotence of the sample generation over an empty
destination. -/
theorem C7_witness :
    fsEquiv (applyActions (generate cSample) (applyActions (generate cSample) emptyFS))
      (applyActions (generate cSample) emptyFS) :=
  C7_idempotent cSample rfl emptyFS

/-- C8 counterexample: a configuration whose `project_name` is the empty
string passes construction — `__post_init__` contains no check on
`project_name` at all (the only non-empty check in the repository is in the
interactive prompt's validator, not in the constructor). -/
theorem C8_counterexample :
    cEmptyName.project_name = "" ∧ postInit cEmptyName = .ok () :=
  ⟨rfl, rfl⟩

/-- C8 amended: construction does not validate `project_name`; the outcome
of validation is entirely independent of it, so the empty string is
accepted whenever the remaining fields are valid. -/
theorem C8_amended (c : ProjectConfig) (pn : String) :
    postInit { c with project_name := pn } = postInit c := rfl

/-- C9 counterexample: the render context of the sample configuration has
seventeen `use_*` keys, not eighteen (there is no flag for `local`, for the
`none` sentinels, for `pip`, or for an unset observability tool). -/
theorem C9_counterexample :
    ((build_context cSample).map Prod.fst).countP (fun k => startsWithUse k) = 17 ∧
    ¬ ((build_context cSample).map Prod.fst).countP (fun k => startsWithUse k) = 18 := by
  decide

/-- C9 amended: the key set of the render context is fixed and closed — the
same twenty-six distinct keys for every configuration whatever its field
values: the nine raw fields plus seventeen `use_*` flags. -/
theorem C9_amended (c : ProjectConfig) :
    (build_context c).map Prod.fst = contextKeys ∧
    contextKeys.Nodup ∧
    contextKeys.length = 26 ∧
    contextKeys.countP (fun k => startsWithUse k) = 17 :=
  ⟨rfl, by decide, by decide, by decide⟩

/-- C10: whenever the `create` command builds its configuration from the
command line (name and all four tech options supplied, interactive flag
off), that configuration has observability disabled with no tool, and the
generated tree contains no `src/observability.py`; only the interactive
path can enable observability. -/
theorem C10_noninteractive (o : CreateOpts) (c : ProjectConfig)
    (h : createConfig o = some c) :
    c.enable_observability = false ∧ c.observability_tool = none ∧
    "src/observability.py" ∉ writePaths (generate c) := by
  unfold createConfig at h
  split at h
  · exact absurd h (by simp)
  · split at h
    case h_2 => exact absurd h (by simp)
    case h_1 pn lp orc vdb ui hpn hlp horc hvdb hui =>
      split at h
      case h_2 => exact absurd h (by simp)
      case h_1 u heq =>
        rw [Option.some.injEq] at h
        subst h
        refine ⟨rfl, rfl, ?_⟩
        rw [writePaths_generate]
        simp [mem_ite_list, basePaths, mkCliConfig]

/-- C10 witness: the sample non-interactive invocation (the test-suite's
own CLI call) yields `cProj`, which has observability off and writes no
`src/observability.py`. -/
theorem C10_witness :
    cProj.enable_observability = false ∧ cProj.observability_tool = none ∧
    "src/observability.py" ∉ writePaths (generate cProj) :=
  C10_noninteractive oSample cProj rfl

end GenaiScaffold

